import Mathlib

/-!
Shallow embedding of the blog-post persistence and validation workflow of
`src/routes/blog.js` (an Express router over a Mongo-style document store).

Request bodies arrive from a multipart form: plain fields are either absent
or strings; structured fields (tags, sections, meta, mainImageEdit) are
either absent, present but unparseable JSON, or parse to a value.  JavaScript
truthiness of a string field (`!x` is true for `undefined`, `null` and `""`)
is modelled by `strTruthy` on `Option String`.

The remote services the router calls (Mongoose models `Blog`/`Category`,
Cloudinary) are not part of `src/`; following the spec they are modelled as:
the two stores as in-memory lists of documents, and the Asset Uploader as an
environment providing an upload function `String → String` (file path to
durable URL) and a deletion oracle telling which destroy calls fail.
Every remote call the handlers issue is recorded in an `Effect` trace.
-/

namespace BlogRoutes

/-- JS truthiness of an optional string form field: `undefined`, `null` and
`""` are falsy, any other string is truthy. -/
def strTruthy : Option String → Bool
  | some s => s ≠ ""
  | none => false

/-- A structured (JSON) form field: absent (or empty, hence falsy), present
but failing `JSON.parse`, or parsed to a value of type `α`. -/
inductive Jfield (α : Type) where
  | absent : Jfield α
  | malformed : Jfield α
  | val : α → Jfield α
deriving DecidableEq, Repr

/-- JS truthiness of the raw structured field before parsing: only an absent
(or empty-string) field is falsy. -/
def Jfield.truthy : Jfield α → Bool
  | Jfield.absent => false
  | _ => true

/-- A structured form field that the create handler additionally checks with
`Array.isArray`: `notArray` is JSON that parses but is not an array. -/
inductive JArr (α : Type) where
  | absent : JArr α
  | malformed : JArr α
  | notArray : JArr α
  | val : List α → JArr α
deriving DecidableEq, Repr

/-- A stored category document (`../models/Category` is outside `src/`;
fields are the ones the router reads). -/
structure Category where
  id : String
  name : String
  slug : String
  description : String
  status : String
deriving DecidableEq, Repr

/-- Embedded SEO metadata of a stored blog document. -/
structure Meta where
  meta_title : String
  meta_description : String
  meta_keywords : List String
deriving DecidableEq, Repr

/-- An embedded section of a stored blog document.  `section_img` is optional
because the update handler can store a section without an image value. -/
structure Section where
  section_img : Option String
  section_title : Option String
  section_description : Option String
  section_list : List String
  order : Nat
deriving DecidableEq, Repr

/-- A stored blog document (`../models/Blog` is outside `src/`; fields are
the ones the router writes and reads).  `createdAt` is the timestamp used by
the `sort(\x7b createdAt: -1 \x7d)` queries. -/
structure BlogDoc where
  id : String
  title : String
  description : String
  tags : List String
  category : String
  featured : Bool
  status : String
  mainImage : Option String
  sections : List Section
  meta : Meta
  author : String
  createdAt : Nat
deriving DecidableEq, Repr

/-- An incoming section descriptor, as parsed out of the `sections` JSON. -/
structure SectionIn where
  section_img : Option String
  section_title : Option String
  section_description : Option String
  section_list : Option (List String)
deriving DecidableEq, Repr

/-- An incoming meta descriptor, as parsed out of the `meta` JSON. -/
structure MetaIn where
  meta_title : Option String
  meta_description : Option String
  meta_keywords : Option (List String)
deriving DecidableEq, Repr

/-- The crop rectangle of a `mainImageEdit` payload (coordinates after the
handler's `Math.round`). -/
structure CropBox where
  x : Int
  y : Int
  width : Int
  height : Int
deriving DecidableEq, Repr

/-- The parsed `mainImageEdit` payload.  Numeric JS truthiness: a brightness,
contrast or saturation of `0` is falsy and produces no transformation. -/
structure EditState where
  crop : Option CropBox
  brightness : Option Int
  contrast : Option Int
  saturation : Option Int
deriving DecidableEq, Repr

/-- The `mainImageEdit` default `\x7b\x7d` used when the field is absent. -/
def EditState.empty : EditState :=
  { crop := none, brightness := none, contrast := none, saturation := none }

/-- One Cloudinary transformation entry built by the create handler. -/
inductive Transform where
  | cropT (x y width height : Int)
  | effect (s : String)
deriving DecidableEq, Repr

/-- The transformation list built from a parsed `mainImageEdit`, in the
source's order: crop, brightness, contrast, saturation. -/
def buildTransforms (e : EditState) : List Transform :=
  (match e.crop with
   | some c => [Transform.cropT c.x c.y c.width c.height]
   | none => []) ++
  (match e.brightness with
   | some b => if b ≠ 0 then [Transform.effect (String.append "brightness:" (toString b))] else []
   | none => []) ++
  (match e.contrast with
   | some b => if b ≠ 0 then [Transform.effect (String.append "contrast:" (toString b))] else []
   | none => []) ++
  (match e.saturation with
   | some b => if b ≠ 0 then [Transform.effect (String.append "saturation:" (toString b))] else []
   | none => [])

/-- A remote call issued by a handler, in issue order. -/
inductive Effect where
  | uploadMain (path : String) (tf : List Transform)
  | uploadSection (path : String)
  | destroyAsset (publicId : String)
  | removeDoc (id : String)
deriving DecidableEq, Repr

/-- Modelled from the spec: the Asset Uploader returns a durable URL for an
uploaded local file, and asset deletion can fail remotely.  `uploadUrl` maps
a local file path to the returned `secure_url`; `destroyFails` tells which
`destroy` calls the remote store rejects (by public id). -/
structure Env where
  uploadUrl : String → String
  destroyFails : String → Bool

/-- `Category.findById` over the category store. -/
def findCatById (cats : List Category) (cid : String) : Option Category :=
  cats.find? (fun c => c.id == cid)

/-- `Category.findOne(\x7b slug, status: "published" \x7d)` over the category
store. -/
def findCatBySlugPublished (cats : List Category) (slug : String) : Option Category :=
  cats.find? (fun c => c.slug == slug && c.status == "published")

/-- `Blog.findById` over the blog store. -/
def findBlogById (blogs : List BlogDoc) (bid : String) : Option BlogDoc :=
  blogs.find? (fun b => b.id == bid)

/-- The create handler's required-field guard:
`!title || !description || !category || !meta || !req.files.mainImage`. -/
def requiredMissing (req_title req_description req_category : Option String)
    (req_meta : Jfield MetaIn) (req_mainImage : Option String) : Bool :=
  !strTruthy req_title || !strTruthy req_description || !strTruthy req_category ||
  !req_meta.truthy || !req_mainImage.isSome

/-- The `details` object of the 400 "Missing required fields" response: the
message for each missing field, `null` for each present one. -/
structure MissingDetails where
  title : Option String
  description : Option String
  category : Option String
  meta : Option String
  mainImage : Option String
deriving DecidableEq, Repr

/-- The create request, as delivered by the multipart middleware:
plain fields as optional strings, structured fields as `Jfield`/`JArr`,
uploaded files as their local paths (`mainImage` has `maxCount: 1`,
`section_images` up to 10, in field order). -/
structure CreateReq where
  title : Option String
  description : Option String
  tags : JArr String
  category : Option String
  featured : Option String
  status : Option String
  sections : JArr SectionIn
  meta : Jfield MetaIn
  mainImageEdit : Jfield EditState
  mainImage : Option String
  section_images : List String
deriving Repr

/-- The create handler's possible responses. -/
inductive CreateRes where
  | missingFields (details : MissingDetails)
  | invalidMeta (details : String)
  | invalidCategory
  | invalidSections (details : String)
  | invalidTags (details : String)
  | created (blog : BlogDoc)
  | serverError (details : String)
deriving DecidableEq, Repr

/-- HTTP status of a create response. -/
def CreateRes.statusCode : CreateRes → Nat
  | CreateRes.created _ => 201
  | CreateRes.serverError _ => 500
  | _ => 400

/-- The sections of a successful create response (`[]` otherwise). -/
def CreateRes.resSections : CreateRes → List Section
  | CreateRes.created b => b.sections
  | _ => []

/-- Whether a create response is the 201 success. -/
def CreateRes.isCreated : CreateRes → Bool
  | CreateRes.created _ => true
  | _ => false

def missingDetails (req : CreateReq) : MissingDetails :=
  { title := if strTruthy req.title then none else some "Title is required",
    description := if strTruthy req.description then none else some "Description is required",
    category := if strTruthy req.category then none else some "Category is required",
    meta := if req.meta.truthy then none else some "Meta information is required",
    mainImage := if req.mainImage.isSome then none else some "Main image is required" }

/-- Main-image processing of the create handler: skipped when no file was
uploaded; `JSON.parse(mainImageEdit)` throwing aborts the request (caught by
the catch-all, no upload issued); otherwise one upload with the built
transformation list. -/
def processMainImage (env : Env) (req : CreateReq) :
    Except String (Option String × List Effect) :=
  match req.mainImage with
  | none => Except.ok (none, [])
  | some p =>
    match req.mainImageEdit with
    | Jfield.malformed => Except.error "Unexpected token in JSON"
    | Jfield.absent =>
      Except.ok (some (env.uploadUrl p), [Effect.uploadMain p (buildTransforms EditState.empty)])
    | Jfield.val e =>
      Except.ok (some (env.uploadUrl p), [Effect.uploadMain p (buildTransforms e)])

/-- Per-section processing of the create handler at position `i`: an uploaded
file at the same position wins; otherwise a truthy existing `section_img` is
kept; otherwise the section throws `Missing image for section (i+1)`. -/
def procSection (env : Env) (files : List String) (i : Nat) (s : SectionIn) :
    List Effect × Except String Section :=
  match files[i]? with
  | some p =>
    ([Effect.uploadSection p],
     Except.ok { section_img := some (env.uploadUrl p), section_title := s.section_title,
                 section_description := s.section_description,
                 section_list := s.section_list.getD [], order := i })
  | none =>
    if strTruthy s.section_img then
      ([], Except.ok { section_img := s.section_img, section_title := s.section_title,
                       section_description := s.section_description,
                       section_list := s.section_list.getD [], order := i })
    else
      ([], Except.error (String.append "Missing image for section " (toString (i + 1))))

/-- `Promise.all` over the per-section results: the first (lowest-index)
rejection wins; the trace keeps every section's upload call, since each
callback issues its upload regardless of another callback's rejection. -/
def collectExcepts : List (Except String Section) → Except String (List Section)
  | [] => Except.ok []
  | Except.error e :: _ => Except.error e
  | Except.ok s :: rest => (collectExcepts rest).map (fun t => s :: t)

def processSections (env : Env) (files : List String) (l : List SectionIn) :
    List Effect × Except String (List Section) :=
  let results := l.enum.map (fun p => procSection env files p.1 p.2)
  ((results.map Prod.fst).flatten, collectExcepts (results.map Prod.snd))

/-- The `POST /` handler.  Arguments beyond the stores and request: the
authenticated principal (`req.user.id`), the id Mongo assigns to the new
document, and the creation timestamp.  Returns the response, the trace of
remote calls, and the blog store after the request. -/
def createBlog (env : Env) (cats : List Category) (blogs : List BlogDoc)
    (req : CreateReq) (userId newId : String) (now : Nat) :
    CreateRes × List Effect × List BlogDoc :=
  if requiredMissing req.title req.description req.category req.meta req.mainImage then
    (CreateRes.missingFields (missingDetails req), [], blogs)
  else
    match req.meta with
    | Jfield.absent =>
      -- unreachable: an absent meta is caught by the required-field guard
      (CreateRes.invalidMeta "Meta must be a valid JSON object", [], blogs)
    | Jfield.malformed =>
      (CreateRes.invalidMeta "Meta must be a valid JSON object", [], blogs)
    | Jfield.val parsedMeta =>
      if !strTruthy parsedMeta.meta_title || !strTruthy parsedMeta.meta_description then
        (CreateRes.invalidMeta "Meta must include meta_title and meta_description", [], blogs)
      else
        match findCatById cats (req.category.getD "") with
        | none => (CreateRes.invalidCategory, [], blogs)
        | some _ =>
          match processMainImage env req with
          | Except.error e => (CreateRes.serverError e, [], blogs)
          | Except.ok (mainImageUrl, mainEffects) =>
            match req.sections with
            | JArr.malformed =>
              (CreateRes.invalidSections "Sections must be a valid JSON array", mainEffects, blogs)
            | JArr.notArray =>
              (CreateRes.invalidSections "Sections must be an array", mainEffects, blogs)
            | sf =>
              let parsedSections : List SectionIn :=
                match sf with
                | JArr.val l => l
                | _ => []
              let secRes := processSections env req.section_images parsedSections
              match secRes.2 with
              | Except.error e =>
                (CreateRes.serverError e, mainEffects ++ secRes.1, blogs)
              | Except.ok processed =>
                match req.tags with
                | JArr.malformed =>
                  (CreateRes.invalidTags "Tags must be a valid JSON array",
                   mainEffects ++ secRes.1, blogs)
                | JArr.notArray =>
                  (CreateRes.invalidTags "Tags must be an array", mainEffects ++ secRes.1, blogs)
                | tf =>
                  let parsedTags : List String :=
                    match tf with
                    | JArr.val t => t
                    | _ => []
                  let blog : BlogDoc :=
                    { id := newId,
                      title := req.title.getD "",
                      description := req.description.getD "",
                      tags := parsedTags,
                      category := req.category.getD "",
                      featured := req.featured == some "true",
                      status := match req.status with
                        | some st => if st ≠ "" then st else "draft"
                        | none => "draft",
                      mainImage := mainImageUrl,
                      sections := processed,
                      meta := { meta_title := parsedMeta.meta_title.getD "",
                                meta_description := parsedMeta.meta_description.getD "",
                                meta_keywords := parsedMeta.meta_keywords.getD [] },
                      author := userId,
                      createdAt := now }
                  (CreateRes.created blog, mainEffects ++ secRes.1, blogs ++ [blog])

/-- The incoming meta of the update handler.  It is read as an object whose
fields are form strings: `meta_title`/`meta_description` fall back through
`||`, and `meta_keywords` goes through `JSON.parse` (absent falls back to the
stored keywords, unparseable throws). -/
structure MetaUpd where
  meta_title : Option String
  meta_description : Option String
  meta_keywords : Jfield (List String)
deriving DecidableEq, Repr

/-- The update request.  `meta := none` models a body with no `meta` value at
all (the handler then dereferences `undefined`); `tags` and `sections` are
structured fields; `files` are the `section_images` upload paths. -/
structure UpdateReq where
  title : Option String
  description : Option String
  tags : Jfield (List String)
  category : Option String
  featured : Option String
  status : Option String
  sections : Jfield (List SectionIn)
  meta : Option MetaUpd
  files : List String
deriving Repr

/-- The update handler's possible responses. -/
inductive UpdateRes where
  | notFound
  | invalidCategory
  | updated (blog : BlogDoc)
  | serverError
deriving DecidableEq, Repr

/-- HTTP status of an update response. -/
def UpdateRes.statusCode : UpdateRes → Nat
  | UpdateRes.notFound => 404
  | UpdateRes.invalidCategory => 400
  | UpdateRes.updated _ => 200
  | UpdateRes.serverError => 500

/-- `x || y` on a string form field against a stored string: an absent or
empty incoming value keeps the stored one. -/
def orStr (o : Option String) (d : String) : String :=
  match o with
  | some s => if s = "" then d else s
  | none => d

/-- The `PUT /:id` handler.  Returns the response and the blog store after
the request (`save` persists only when no step threw). -/
def updateBlog (cats : List Category) (blogs : List BlogDoc) (bid : String)
    (req : UpdateReq) : UpdateRes × List BlogDoc :=
  match findBlogById blogs bid with
  | none => (UpdateRes.notFound, blogs)
  | some blog =>
    if strTruthy req.category && (findCatById cats (req.category.getD "")).isNone then
      (UpdateRes.invalidCategory, blogs)
    else
      match req.sections with
      | Jfield.malformed =>
        -- JSON.parse(sections) throwing is caught by the catch-all: 500, no save
        (UpdateRes.serverError, blogs)
      | sf =>
        let processedSections : List Section :=
          match sf with
          | Jfield.val l =>
            l.enum.map (fun p =>
              { section_img := match req.files[p.1]? with
                  | some path => some path
                  | none => p.2.section_img,
                section_title := p.2.section_title,
                section_description := p.2.section_description,
                section_list := p.2.section_list.getD [],
                order := p.1 })
          | _ => blog.sections
        match req.tags with
        | Jfield.malformed =>
          -- JSON.parse(tags) throwing is caught by the catch-all: 500, no save
          (UpdateRes.serverError, blogs)
        | tf =>
          let newTags : List String :=
            match tf with
            | Jfield.val t => t
            | _ => blog.tags
          match req.meta with
          | none =>
            -- reading meta.meta_title of undefined throws: 500, no save
            (UpdateRes.serverError, blogs)
          | some m =>
            match m.meta_keywords with
            | Jfield.malformed =>
              -- JSON.parse(meta.meta_keywords) throwing: 500, no save
              (UpdateRes.serverError, blogs)
            | kw =>
              let newMeta : Meta :=
                { meta_title := orStr m.meta_title blog.meta.meta_title,
                  meta_description := orStr m.meta_description blog.meta.meta_description,
                  meta_keywords := match kw with
                    | Jfield.val k => k
                    | _ => blog.meta.meta_keywords }
              let updatedDoc : BlogDoc :=
                { blog with
                  title := orStr req.title blog.title,
                  description := orStr req.description blog.description,
                  tags := newTags,
                  category := orStr req.category blog.category,
                  featured := req.featured == some "true",
                  status := orStr req.status blog.status,
                  sections := processedSections,
                  meta := newMeta }
              (UpdateRes.updated updatedDoc,
               blogs.map (fun b => if b.id == bid then updatedDoc else b))

/-- The delete handler's possible responses. -/
inductive DeleteRes where
  | notFound
  | deleted
  | serverError
deriving DecidableEq, Repr

/-- HTTP status of a delete response. -/
def DeleteRes.statusCode : DeleteRes → Nat
  | DeleteRes.notFound => 404
  | DeleteRes.deleted => 200
  | DeleteRes.serverError => 500

/-- `str.split(sep)` for a one-character separator, on the character list:
splitting never yields an empty group list, and an empty input gives one
empty group, as in JavaScript. -/
def splitOnChar (sep : Char) : List Char → List (List Char)
  | [] => [[]]
  | c :: rest =>
    if c = sep then
      [] :: splitOnChar sep rest
    else
      match splitOnChar sep rest with
      | [] => [[c]]
      | g :: gs => (c :: g) :: gs

/-- The public id the delete handler derives from an asset URL:
`url.split("/").pop().split(".")[0]` — the last path segment truncated at
its first dot. -/
def publicIdOf (url : String) : String :=
  let lastSeg := (splitOnChar '/' url.toList).getLastD []
  String.mk ((splitOnChar '.' lastSeg).headD [])

/-- The delete handler's cascade over the stored sections: one `destroy` per
section with a truthy `section_img`, in order; a failing destroy throws, so
later calls are not issued.  Returns the issued calls and whether the loop
completed. -/
def destroySections (env : Env) : List Section → List Effect × Bool
  | [] => ([], true)
  | s :: rest =>
    if strTruthy s.section_img then
      let pid := publicIdOf (s.section_img.getD "")
      if env.destroyFails pid then
        ([Effect.destroyAsset pid], false)
      else
        let r := destroySections env rest
        (Effect.destroyAsset pid :: r.1, r.2)
    else
      destroySections env rest

/-- The `DELETE /:id` handler.  Returns the response, the trace of remote
calls, and the blog store after the request (`deleteOne` removes the
document only if every destroy succeeded; a destroy failure is caught by
the catch-all: 500, document kept). -/
def deleteBlog (env : Env) (blogs : List BlogDoc) (bid : String) :
    DeleteRes × List Effect × List BlogDoc :=
  match findBlogById blogs bid with
  | none => (DeleteRes.notFound, [], blogs)
  | some blog =>
    let r := destroySections env blog.sections
    if r.2 then
      (DeleteRes.deleted, r.1 ++ [Effect.removeDoc bid],
       blogs.filter (fun b => !(b.id == bid)))
    else
      (DeleteRes.serverError, r.1, blogs)

/-- `parseInt(q) || d`: an absent or non-numeric query value, and also `0`,
give the default. -/
def numOr (q : Option Nat) (d : Nat) : Nat :=
  match q with
  | some k => if k = 0 then d else k
  | none => d

/-- `Math.ceil(total / limit)` on naturals (exact for `0 < limit`). -/
def ceilDiv (a b : Nat) : Nat := (a + b - 1) / b

/-- The `sort(\x7b createdAt: -1 \x7d)` order: newest first. -/
def byNewest (a b : BlogDoc) : Prop := b.createdAt ≤ a.createdAt

instance : DecidableRel byNewest := fun a b => inferInstanceAs (Decidable (b.createdAt ≤ a.createdAt))

/-- The documents matching a category listing query:
`\x7b category: cid, status: "published" \x7d`. -/
def matchBlogs (blogs : List BlogDoc) (cid : String) : List BlogDoc :=
  blogs.filter (fun b => b.category == cid && b.status == "published")

/-- `sort(createdAt desc).skip((page-1)*limit).limit(limit)`, shared by both
category listing handlers. -/
def paginate (l : List BlogDoc) (page limit : Nat) : List BlogDoc :=
  ((l.insertionSort byNewest).drop ((page - 1) * limit)).take limit

/-- The `pagination` object of a listing response. -/
structure PaginationInfo where
  total : Nat
  page : Nat
  pages : Nat
  limit : Nat
deriving DecidableEq, Repr

/-- The `category` object of a listing response (`blogCount` only on the
slug route). -/
structure CategoryInfo where
  name : String
  slug : String
  description : String
  blogCount : Option Nat
deriving DecidableEq, Repr

/-- A category listing response. -/
inductive CatListRes where
  | invalidId
  | notFound
  | ok (blogs : List BlogDoc) (pagination : PaginationInfo) (category : CategoryInfo)
deriving DecidableEq, Repr

/-- HTTP status of a listing response. -/
def CatListRes.statusCode : CatListRes → Nat
  | CatListRes.invalidId => 400
  | CatListRes.notFound => 404
  | CatListRes.ok _ _ _ => 200

/-- Whether a listing response is the 200 success. -/
def CatListRes.isOk : CatListRes → Bool
  | CatListRes.ok _ _ _ => true
  | _ => false

/-- The blog list of a listing response (`[]` on failure). -/
def CatListRes.items : CatListRes → List BlogDoc
  | CatListRes.ok l _ _ => l
  | _ => []

/-- The pagination object of a listing response (zeros on failure). -/
def CatListRes.pageInfo : CatListRes → PaginationInfo
  | CatListRes.ok _ p _ => p
  | _ => { total := 0, page := 0, pages := 0, limit := 0 }

/-- `mongoose.Types.ObjectId.isValid`: a 12-character string or 24 hex
characters. -/
def isValidObjectId (s : String) : Bool :=
  s.length == 12 ||
  (s.length == 24 && s.toList.all (fun c =>
    c.isDigit || ('a' ≤ c && c ≤ 'f') || ('A' ≤ c && c ≤ 'F')))

/-- The `GET /category/id/:categoryId` handler. -/
def getByCategoryId (cats : List Category) (blogs : List BlogDoc)
    (categoryId : String) (pageQ limitQ : Option Nat) : CatListRes :=
  if !isValidObjectId categoryId then
    CatListRes.invalidId
  else
    match findCatById cats categoryId with
    | none => CatListRes.notFound
    | some c =>
      let page := numOr pageQ 1
      let limit := numOr limitQ 10
      let total := (matchBlogs blogs categoryId).length
      CatListRes.ok (paginate (matchBlogs blogs categoryId) page limit)
        { total := total, page := page, pages := ceilDiv total limit, limit := limit }
        { name := c.name, slug := c.slug, description := c.description, blogCount := none }

/-- The `GET /category/:slug` handler: the category lookup additionally
requires the category itself to be published, and the response's category
object carries `blogCount`. -/
def getByCategorySlug (cats : List Category) (blogs : List BlogDoc)
    (slug : String) (pageQ limitQ : Option Nat) : CatListRes :=
  match findCatBySlugPublished cats slug with
  | none => CatListRes.notFound
  | some c =>
    let page := numOr pageQ 1
    let limit := numOr limitQ 10
    let total := (matchBlogs blogs c.id).length
    CatListRes.ok (paginate (matchBlogs blogs c.id) page limit)
      { total := total, page := page, pages := ceilDiv total limit, limit := limit }
      { name := c.name, slug := c.slug, description := c.description, blogCount := some total }

/-- A section at position `i` has an asset available at creation: an uploaded
file at the same position, or a truthy existing `section_img`
(the negation of the handler's `!sectionImage && !section.section_img`). -/
def hasAsset (files : List String) (i : Nat) (s : SectionIn) : Bool :=
  files[i]?.isSome || strTruthy s.section_img

/-- The upload calls a single section issues: one when a file sits at its
position, none otherwise. -/
def sectionEffects (files : List String) (i : Nat) : List Effect :=
  match files[i]? with
  | some p => [Effect.uploadSection p]
  | none => []

/-- The section the create handler builds at position `i` when its asset is
available. -/
def okSection (env : Env) (files : List String) (i : Nat) (s : SectionIn) : Section :=
  match files[i]? with
  | some p =>
    { section_img := some (env.uploadUrl p), section_title := s.section_title,
      section_description := s.section_description,
      section_list := s.section_list.getD [], order := i }
  | none =>
    { section_img := s.section_img, section_title := s.section_title,
      section_description := s.section_description,
      section_list := s.section_list.getD [], order := i }

/-- Modelled from the spec: the asset identifier the spec prescribes for
deletion — "derives the asset identifier from the URL path (last path
segment, extension stripped)", i.e. the last path segment with everything
from its final dot removed. -/
def lastPathSegmentExtStripped (url : String) : String :=
  let seg := (splitOnChar '/' url.toList).getLastD []
  let parts := splitOnChar '.' seg
  if parts.length ≤ 1 then String.mk seg
  else String.mk ((parts.dropLast.map (fun g => g ++ ['.'])).flatten.dropLast)

/-! Concrete fixtures used by witnesses and counterexamples. -/

/-- A sample uploader environment in which every remote call succeeds. -/
def env0 : Env :=
  { uploadUrl := fun p => String.append "https://cdn.example.com/" p,
    destroyFails := fun _ => false }

/-- A sample uploader environment in which destroying the asset `img1`
fails remotely. -/
def envFailImg1 : Env :=
  { uploadUrl := fun p => String.append "https://cdn.example.com/" p,
    destroyFails := fun pid => pid == "img1" }

def cat1 : Category :=
  { id := "aaaaaaaaaaaaaaaaaaaaaaaa", name := "Tech", slug := "tech",
    description := "Tech posts", status := "published" }

def catDraft : Category :=
  { id := "bbbbbbbbbbbbbbbbbbbbbbbb", name := "Hidden", slug := "hidden",
    description := "Unpublished", status := "draft" }

def sampleCats : List Category := [cat1, catDraft]

def meta1 : Meta := { meta_title := "mt", meta_description := "md", meta_keywords := ["k"] }

def sec1 : Section :=
  { section_img := some "https://cdn.example.com/s/img1.png", section_title := some "t",
    section_description := some "d", section_list := [], order := 0 }

def sampleBlog1 : BlogDoc :=
  { id := "b1", title := "Old Title", description := "Old desc", tags := ["x"],
    category := cat1.id, featured := true, status := "published",
    mainImage := some "https://cdn.example.com/m.png", sections := [sec1],
    meta := meta1, author := "u1", createdAt := 5 }

def sampleBlogs : List BlogDoc := [sampleBlog1]

def sampleBlog2 : BlogDoc :=
  { id := "b2", title := "Other", description := "Other desc", tags := [],
    category := cat1.id, featured := false, status := "draft",
    mainImage := none, sections := [], meta := meta1, author := "u2", createdAt := 7 }

def blogsPair : List BlogDoc := [sampleBlog1, sampleBlog2]

/-- An update request carrying only a new title. -/
def titleOnlyReq : UpdateReq :=
  { title := some "New Title", description := none, tags := Jfield.absent,
    category := none, featured := none, status := none,
    sections := Jfield.absent, meta := none, files := [] }

/-- An update request carrying a new title and description but no meta. -/
def titleDescReq : UpdateReq :=
  { title := some "T2", description := some "D2", tags := Jfield.absent,
    category := none, featured := none, status := none,
    sections := Jfield.absent, meta := none, files := [] }

def secInNoImg : SectionIn :=
  { section_img := none, section_title := some "s", section_description := none,
    section_list := none }

def secInWithUrl : SectionIn :=
  { section_img := some "https://old.example.com/k/u.png", section_title := none,
    section_description := none, section_list := some ["a"] }

/-- A create request that passes every validation when the store contains
`cat1` (one section, one section image). -/
def baseCreateReq : CreateReq :=
  { title := some "T", description := some "D", tags := JArr.absent,
    category := some "aaaaaaaaaaaaaaaaaaaaaaaa", featured := none, status := none,
    sections := JArr.val [secInNoImg],
    meta := Jfield.val { meta_title := some "mt", meta_description := some "md",
                         meta_keywords := none },
    mainImageEdit := Jfield.absent, mainImage := some "main.png",
    section_images := ["s0.png"] }

/-- `baseCreateReq` with an empty description and no main image file. -/
def missingCreateReq : CreateReq :=
  { baseCreateReq with description := some "", mainImage := none }

/-- `baseCreateReq` with two sections and a single section image file, so the
first section gets the upload and the second keeps its URL. -/
def twoSectionReq : CreateReq :=
  { baseCreateReq with sections := JArr.val [secInNoImg, secInWithUrl],
                       section_images := ["s0.png"] }

/-- `baseCreateReq` with one section that has neither an uploaded file nor an
existing URL. -/
def missingAssetReq : CreateReq :=
  { baseCreateReq with sections := JArr.val [secInNoImg], section_images := [] }

/-- A stored section whose asset URL has a multi-dot last path segment. -/
def dotSec : Section :=
  { section_img := some "https://res.example.com/img/photo.2024.jpg",
    section_title := none, section_description := none, section_list := [], order := 0 }

def dotBlog : BlogDoc :=
  { id := "b9", title := "Dots", description := "d", tags := [], category := cat1.id,
    featured := false, status := "published", mainImage := none, sections := [dotSec],
    meta := meta1, author := "u1", createdAt := 3 }

def dotBlogs : List BlogDoc := [dotBlog]

/-- A stored blog with three sections referencing three distinct asset URLs. -/
def threeSecBlog : BlogDoc :=
  { id := "b3", title := "Three", description := "d", tags := [], category := cat1.id,
    featured := false, status := "published", mainImage := none,
    sections :=
      [{ section_img := some "https://cdn.example.com/a/one.png", section_title := none,
         section_description := none, section_list := [], order := 0 },
       { section_img := some "https://cdn.example.com/a/two.png", section_title := none,
         section_description := none, section_list := [], order := 1 },
       { section_img := some "https://cdn.example.com/a/three.png", section_title := none,
         section_description := none, section_list := [], order := 2 }],
    meta := meta1, author := "u1", createdAt := 4 }

/-- The `i`-th of fifteen published sample blogs in `cat1`. -/
def pagedBlog (i : Nat) : BlogDoc :=
  { id := String.append "p" (toString i), title := "t", description := "d", tags := [],
    category := cat1.id, featured := false, status := "published", mainImage := none,
    sections := [], meta := meta1, author := "u", createdAt := i }

/-- Fifteen published blogs in `cat1`. -/
def fifteenBlogs : List BlogDoc := (List.range 15).map pagedBlog

/-! Helper lemmas. -/

theorem destroySections_no_removeDoc (env : Env) (x : String) :
    ∀ ss : List Section, Effect.removeDoc x ∉ (destroySections env ss).1 := by
  intro ss
  induction ss with
  | nil => simp [destroySections]
  | cons s rest ih =>
    by_cases ht : strTruthy s.section_img
    · by_cases hf : env.destroyFails (publicIdOf (s.section_img.getD ""))
      · simp [destroySections, ht, hf]
      · simp only [destroySections, ht, hf]
        simp only [if_true, if_false, Bool.false_eq_true]
        intro hmem
        rcases List.mem_cons.mp hmem with h | h
        · exact Effect.noConfusion h
        · exact ih h
    · simpa [destroySections, ht] using ih

theorem destroySections_completed_effects (env : Env) :
    ∀ ss : List Section, (destroySections env ss).2 = true →
      (destroySections env ss).1 =
        (ss.filter (fun s => strTruthy s.section_img)).map
          (fun s => Effect.destroyAsset (publicIdOf (s.section_img.getD ""))) := by
  intro ss
  induction ss with
  | nil => intro _; simp [destroySections]
  | cons s rest ih =>
    intro hok
    by_cases ht : strTruthy s.section_img
    · by_cases hf : env.destroyFails (publicIdOf (s.section_img.getD ""))
      · simp [destroySections, ht, hf] at hok
      · have h2 : (destroySections env rest).2 = true := by
          simpa [destroySections, ht, hf] using hok
        simp [destroySections, ht, hf, ih h2, List.filter_cons]
    · have h2 : (destroySections env rest).2 = true := by
        simpa [destroySections, ht] using hok
      simp [destroySections, ht, ih h2, List.filter_cons]

theorem length_paginate (l : List BlogDoc) (page limit : Nat) :
    (paginate l page limit).length = min limit (l.length - (page - 1) * limit) := by
  simp [paginate, List.length_take, List.length_drop, List.length_insertionSort]

theorem mem_paginate (l : List BlogDoc) (page limit : Nat) (b : BlogDoc)
    (h : b ∈ paginate l page limit) : b ∈ l := by
  have h1 := (List.take_sublist _ _).subset h
  have h2 := (List.drop_sublist _ _).subset h1
  exact (List.perm_insertionSort byNewest l).subset h2

/-- The Galois characterization of `ceilDiv` as the ceiling of the true
quotient: `ceilDiv a b` is the least `n` with `a ≤ n * b`. -/
theorem ceilDiv_le_iff (a b n : Nat) (hb : 0 < b) : ceilDiv a b ≤ n ↔ a ≤ n * b := by
  unfold ceilDiv
  rw [Nat.div_le_iff_le_mul_add_pred hb, Nat.mul_comm b n]
  generalize n * b = m
  omega

theorem procSection_ok (env : Env) (files : List String) (i : Nat) (s : SectionIn)
    (h : hasAsset files i s = true) :
    procSection env files i s = (sectionEffects files i, Except.ok (okSection env files i s)) := by
  unfold procSection sectionEffects okSection
  cases hf : files[i]? with
  | some p => rfl
  | none =>
    have ht : strTruthy s.section_img = true := by
      simpa [hasAsset, hf] using h
    simp [ht]

theorem procSection_error (env : Env) (files : List String) (i : Nat) (s : SectionIn)
    (h : hasAsset files i s = false) :
    procSection env files i s =
      ([], Except.error (String.append "Missing image for section " (toString (i + 1)))) := by
  have hf : files[i]? = none := by
    cases hf : files[i]? with
    | some p => simp [hasAsset, hf] at h
    | none => rfl
  have ht : strTruthy s.section_img = false := by
    simpa [hasAsset, hf] using h
  unfold procSection
  simp [hf, ht]

theorem collectExcepts_map_ok (l : List Section) :
    collectExcepts (l.map Except.ok) = Except.ok l := by
  induction l with
  | nil => rfl
  | cons s rest ih => simp [collectExcepts, ih, Except.map]

theorem collectExcepts_first_error (es : List (Except String Section)) (i : Nat) (e : String)
    (hi : es[i]? = some (Except.error e))
    (hj : ∀ j, j < i → ∃ a, es[j]? = some (Except.ok a)) :
    collectExcepts es = Except.error e := by
  induction es generalizing i with
  | nil => simp at hi
  | cons x rest ih =>
    cases i with
    | zero =>
      simp at hi
      rw [hi]
      rfl
    | succ k =>
      obtain ⟨a, ha⟩ := hj 0 (Nat.succ_pos k)
      simp at ha
      rw [ha]
      simp only [collectExcepts]
      rw [ih k (by simpa using hi) (fun j hjk => by simpa using hj (j + 1) (by omega))]
      rfl

theorem processSections_ok (env : Env) (files : List String) (l : List SectionIn)
    (h : ∀ p ∈ l.enum, hasAsset files p.1 p.2 = true) :
    processSections env files l =
      ((l.enum.map (fun p => sectionEffects files p.1)).flatten,
       Except.ok (l.enum.map (fun p => okSection env files p.1 p.2))) := by
  have hmem : ∀ p ∈ l.enum, procSection env files p.1 p.2 =
      (sectionEffects files p.1, Except.ok (okSection env files p.1 p.2)) := by
    intro p hp
    exact procSection_ok env files p.1 p.2 (h p hp)
  have hres := List.map_congr_left hmem
  simp only [processSections, hres, List.map_map, Prod.mk.injEq]
  refine ⟨rfl, ?_⟩
  rw [show (Prod.snd ∘ fun p : Nat × SectionIn => (sectionEffects files p.1,
      Except.ok (okSection env files p.1 p.2))) =
      ((Except.ok : Section → Except String Section) ∘
        fun p : Nat × SectionIn => okSection env files p.1 p.2) from rfl]
  rw [← List.map_map]
  exact collectExcepts_map_ok _

theorem processSections_snd (env : Env) (files : List String) (l : List SectionIn) :
    (processSections env files l).2 =
      collectExcepts ((l.enum.map (fun p => procSection env files p.1 p.2)).map Prod.snd) := rfl

theorem processSections_first_error (env : Env) (files : List String) (l : List SectionIn)
    (i : Nat) (hi : i < l.length)
    (hmiss : hasAsset files i (l.get ⟨i, hi⟩) = false)
    (hbefore : ∀ j (hj : j < i), hasAsset files j (l.get ⟨j, Nat.lt_trans hj hi⟩) = true) :
    (processSections env files l).2 =
      Except.error (String.append "Missing image for section " (toString (i + 1))) := by
  rw [processSections_snd]
  have hes : ∀ (k : Nat) (hk : k < l.length),
      ((l.enum.map (fun p => procSection env files p.1 p.2)).map Prod.snd)[k]? =
        some (procSection env files k (l.get ⟨k, hk⟩)).2 := by
    intro k hk
    simp [List.getElem?_map, List.getElem?_enum, List.getElem?_eq_getElem hk,
      List.get_eq_getElem]
  apply collectExcepts_first_error _ i
  · rw [hes i hi, procSection_error env files i _ hmiss]
  · intro j hj
    refine ⟨okSection env files j (l.get ⟨j, Nat.lt_trans hj hi⟩), ?_⟩
    rw [hes j (Nat.lt_trans hj hi), procSection_ok env files j _ (hbefore j hj)]

theorem okSection_order (env : Env) (files : List String) (i : Nat) (s : SectionIn) :
    (okSection env files i s).order = i := by
  unfold okSection
  cases hf : files[i]? <;> rfl

theorem okSection_img (env : Env) (files : List String) (i : Nat) (s : SectionIn) :
    (okSection env files i s).section_img =
      match files[i]? with
      | some p => some (env.uploadUrl p)
      | none => s.section_img := by
  unfold okSection
  cases hf : files[i]? <;> simp [hf]

theorem get_enum_map_okSection (env : Env) (files : List String) (l : List SectionIn)
    (i : Nat) (h2 : i < (l.enum.map (fun p => okSection env files p.1 p.2)).length) :
    (l.enum.map (fun p => okSection env files p.1 p.2)).get ⟨i, h2⟩ =
      okSection env files i (l.get ⟨i, by simpa [List.enum_length] using h2⟩) := by
  simp [List.get_eq_getElem, List.getElem_map, List.getElem_enum]

/-! Claim theorems. -/

/-- C1: the specified partial-update semantics (an update that supplies only
`title` replaces the title and retains tags, sections, meta, category, status
and featured) do not hold on the code.  On an existing blog whose stored
title is `"Old Title"`, a request carrying only `title := "New Title"` makes
the handler read `meta_title` of the absent meta value; the request fails
with 500 and the store is returned unchanged, so the title is not replaced
either. -/
theorem update_title_only_throws :
    updateBlog sampleCats sampleBlogs "b1" titleOnlyReq = (UpdateRes.serverError, sampleBlogs) ∧
    UpdateRes.serverError.statusCode = 500 ∧
    (findBlogById sampleBlogs "b1").map BlogDoc.title = some "Old Title" ∧
    titleOnlyReq.title = some "New Title" ∧ titleOnlyReq.meta = none := by
  exact ⟨by decide, rfl, by decide, rfl, rfl⟩

/-- C10: an update request on an existing blog whose body carries no meta
value reaches the dereference of the absent meta (once the earlier steps do
not themselves throw or reject: the category reference, when present,
resolves, and `sections`/`tags`, when present, parse), fails with HTTP 500
before `save`, and leaves the stored documents unchanged — update effectively
requires a meta object. -/
theorem update_without_meta_500 (cats : List Category) (blogs : List BlogDoc)
    (bid : String) (req : UpdateReq) (blog : BlogDoc)
    (hfind : findBlogById blogs bid = some blog)
    (hmeta : req.meta = none)
    (hcat : strTruthy req.category = false ∨
      (findCatById cats (req.category.getD "")).isSome = true)
    (hsec : req.sections ≠ Jfield.malformed)
    (htags : req.tags ≠ Jfield.malformed) :
    updateBlog cats blogs bid req = (UpdateRes.serverError, blogs) ∧
    UpdateRes.serverError.statusCode = 500 := by
  refine ⟨?_, rfl⟩
  have hc : (strTruthy req.category && (findCatById cats (req.category.getD "")).isNone) =
      false := by
    rcases hcat with h | h
    · simp [h]
    · cases hfi : findCatById cats (req.category.getD "") with
      | none => rw [hfi] at h; simp at h
      | some c => simp [hfi]
  simp only [updateBlog, hfind, hc, Bool.false_eq_true, if_false]
  cases hs : req.sections with
  | malformed => exact absurd hs hsec
  | absent =>
    cases htg : req.tags with
    | malformed => exact absurd htg htags
    | absent => simp [hmeta]
    | val t => simp [hmeta]
  | val l =>
    cases htg : req.tags with
    | malformed => exact absurd htg htags
    | absent => simp [hmeta]
    | val t => simp [hmeta]

/-- C10 witness: a concrete title-and-description-only update on an existing
blog returns 500 and leaves the store unchanged. -/
theorem update_without_meta_500_witness :
    updateBlog sampleCats sampleBlogs "b1" titleDescReq = (UpdateRes.serverError, sampleBlogs) := by
  exact (update_without_meta_500 sampleCats sampleBlogs "b1" titleDescReq sampleBlog1
    (by decide) rfl (Or.inl (by decide)) (by decide) (by decide)).1

/-- C4: a creation request in which title, description, category or meta is
absent (or empty), or no main image file is attached, is rejected with the
400 missing-fields response; the details mark exactly the missing fields
(`isSome` exactly when the field is missing), no remote call is issued, and
the blog store is unchanged. -/
theorem create_missing_fields_rejected (env : Env) (cats : List Category)
    (blogs : List BlogDoc) (req : CreateReq) (userId newId : String) (now : Nat)
    (h : strTruthy req.title = false ∨ strTruthy req.description = false ∨
      strTruthy req.category = false ∨ req.meta.truthy = false ∨ req.mainImage = none) :
    createBlog env cats blogs req userId newId now =
      (CreateRes.missingFields (missingDetails req), [], blogs) ∧
    (CreateRes.missingFields (missingDetails req)).statusCode = 400 ∧
    ((missingDetails req).title.isSome = true ↔ strTruthy req.title = false) ∧
    ((missingDetails req).description.isSome = true ↔ strTruthy req.description = false) ∧
    ((missingDetails req).category.isSome = true ↔ strTruthy req.category = false) ∧
    ((missingDetails req).meta.isSome = true ↔ req.meta.truthy = false) ∧
    ((missingDetails req).mainImage.isSome = true ↔ req.mainImage = none) := by
  have hreq : requiredMissing req.title req.description req.category req.meta req.mainImage =
      true := by
    unfold requiredMissing
    rcases h with h | h | h | h | h <;> simp [h]
  refine ⟨by simp [createBlog, hreq], rfl, ?_, ?_, ?_, ?_, ?_⟩
  · unfold missingDetails
    cases hx : strTruthy req.title <;> simp
  · unfold missingDetails
    cases hx : strTruthy req.description <;> simp
  · unfold missingDetails
    cases hx : strTruthy req.category <;> simp
  · unfold missingDetails
    cases hx : req.meta.truthy <;> simp
  · unfold missingDetails
    cases hx : req.mainImage <;> simp

/-- C4 witness: a concrete request with an empty description and no attached
main image is rejected; the details name exactly those two fields. -/
theorem create_missing_fields_witness :
    createBlog env0 sampleCats [] missingCreateReq "u1" "nb" 9 =
      (CreateRes.missingFields (missingDetails missingCreateReq), [], []) ∧
    (missingDetails missingCreateReq).description = some "Description is required" ∧
    (missingDetails missingCreateReq).mainImage = some "Main image is required" ∧
    (missingDetails missingCreateReq).title = none ∧
    (missingDetails missingCreateReq).category = none ∧
    (missingDetails missingCreateReq).meta = none := by
  refine ⟨(create_missing_fields_rejected env0 sampleCats [] missingCreateReq "u1" "nb" 9
    (Or.inr (Or.inl (by decide)))).1, by decide, by decide, by decide, by decide, by decide⟩

/-- C3 is false on the code at a concrete input: with an existing blog whose
single section references an asset whose deletion fails remotely, the delete
request returns 500, the blog store is unchanged (the document is not
removed), and no document removal is issued. -/
theorem delete_destroy_failure_counterexample :
    deleteBlog envFailImg1 sampleBlogs "b1" =
      (DeleteRes.serverError, [Effect.destroyAsset "img1"], sampleBlogs) ∧
    findBlogById (deleteBlog envFailImg1 sampleBlogs "b1").2.2 "b1" = some sampleBlog1 ∧
    Effect.removeDoc "b1" ∉ (deleteBlog envFailImg1 sampleBlogs "b1").2.1 ∧
    DeleteRes.serverError.statusCode = 500 := by
  exact ⟨by decide, by decide, by decide, rfl⟩

/-- C3 (amended): a failure of an individual asset-deletion call does block
deletion of the parent blog: the handler stops at the failing destroy,
responds 500 (thereby reporting the failure), issues no document removal,
and leaves the store unchanged. -/
theorem delete_destroy_failure_blocks (env : Env) (blogs : List BlogDoc) (bid : String)
    (blog : BlogDoc) (hfind : findBlogById blogs bid = some blog)
    (hfail : (destroySections env blog.sections).2 = false) :
    deleteBlog env blogs bid =
      (DeleteRes.serverError, (destroySections env blog.sections).1, blogs) ∧
    DeleteRes.serverError.statusCode = 500 ∧
    Effect.removeDoc bid ∉ (deleteBlog env blogs bid).2.1 := by
  have hres : deleteBlog env blogs bid =
      (DeleteRes.serverError, (destroySections env blog.sections).1, blogs) := by
    simp [deleteBlog, hfind, hfail]
  refine ⟨hres, rfl, ?_⟩
  rw [hres]
  exact destroySections_no_removeDoc env bid blog.sections

/-- C3 witness: concrete two-blog store, destroy of `img1` failing. -/
theorem delete_destroy_failure_blocks_witness :
    deleteBlog envFailImg1 blogsPair "b1" =
      (DeleteRes.serverError, [Effect.destroyAsset "img1"], blogsPair) := by
  exact ((delete_destroy_failure_blocks envFailImg1 blogsPair "b1" sampleBlog1
    (by decide) (by decide)).1).trans (by decide)

/-- C9 is false on the code at a concrete input: for a stored section image
URL whose last path segment is `photo.2024.jpg`, the delete handler issues
the destroy call with public id `photo` (the segment truncated at its first
dot), which is not the last path segment with the extension stripped
(`photo.2024`); no destroy call with the spec-derived identifier is issued. -/
theorem delete_publicId_counterexample :
    (deleteBlog env0 dotBlogs "b9").2.1 =
      [Effect.destroyAsset "photo", Effect.removeDoc "b9"] ∧
    lastPathSegmentExtStripped "https://res.example.com/img/photo.2024.jpg" = "photo.2024" ∧
    publicIdOf "https://res.example.com/img/photo.2024.jpg" = "photo" ∧
    Effect.destroyAsset
        (lastPathSegmentExtStripped "https://res.example.com/img/photo.2024.jpg") ∉
      (deleteBlog env0 dotBlogs "b9").2.1 := by
  exact ⟨by decide, by decide, by decide, by decide⟩

/-- C9 (amended): deleting an existing blog whose destroys all succeed issues
one asset-deletion call per section with a truthy `section_img`, in section
order, with the identifier derived from the URL as its last path segment
truncated at the first dot, and the single document removal comes after all
of them; the document is removed from the store. -/
theorem delete_cascades_before_removal (env : Env) (blogs : List BlogDoc) (bid : String)
    (blog : BlogDoc) (hfind : findBlogById blogs bid = some blog)
    (hok : (destroySections env blog.sections).2 = true) :
    deleteBlog env blogs bid =
      (DeleteRes.deleted,
       ((blog.sections.filter (fun s => strTruthy s.section_img)).map
          (fun s => Effect.destroyAsset (publicIdOf (s.section_img.getD "")))) ++
         [Effect.removeDoc bid],
       blogs.filter (fun b => !(b.id == bid))) := by
  simp only [deleteBlog, hfind, hok, if_true]
  rw [destroySections_completed_effects env blog.sections hok]

/-- C9 witness: a blog with three sections referencing three distinct asset
URLs yields exactly three destroy calls, in order, before the removal. -/
theorem delete_cascades_witness :
    deleteBlog env0 [threeSecBlog] "b3" =
      (DeleteRes.deleted,
       [Effect.destroyAsset "one", Effect.destroyAsset "two", Effect.destroyAsset "three",
        Effect.removeDoc "b3"],
       []) := by
  exact (delete_cascades_before_removal env0 [threeSecBlog] "b3" threeSecBlog
    (by decide) (by decide)).trans (by decide)

/-- Helper: the defaulted page size is always positive. -/
theorem numOr_pos (q : Option Nat) (d : Nat) (hd : 0 < d) : 0 < numOr q d := by
  unfold numOr
  cases q with
  | none => exact hd
  | some k =>
    by_cases hk : k = 0
    · simpa [hk] using hd
    · simpa [hk] using Nat.pos_of_ne_zero hk

/-- C8: the slug route answers 404 unless some stored category has that slug
and is itself published, while the id route succeeds for any existing
category regardless of its status; and on both routes every returned blog
has status `"published"` — a draft blog never appears. -/
theorem category_listing_visibility (cats : List Category) (blogs : List BlogDoc)
    (slug cid : String) (pq lq : Option Nat) :
    ((∀ c ∈ cats, ¬(c.slug = slug ∧ c.status = "published")) →
      getByCategorySlug cats blogs slug pq lq = CatListRes.notFound) ∧
    (∀ c, isValidObjectId cid = true → findCatById cats cid = some c →
      (getByCategoryId cats blogs cid pq lq).isOk = true) ∧
    (∀ b ∈ (getByCategorySlug cats blogs slug pq lq).items,
      b.status = "published" ∧ b.status ≠ "draft") ∧
    (∀ b ∈ (getByCategoryId cats blogs cid pq lq).items,
      b.status = "published" ∧ b.status ≠ "draft") := by
  have hitems : ∀ (l : List BlogDoc) (cid2 : String) (page limit : Nat) (b : BlogDoc),
      b ∈ paginate (matchBlogs l cid2) page limit →
      b.status = "published" ∧ b.status ≠ "draft" := by
    intro l cid2 page limit b hb
    have hb2 := mem_paginate _ _ _ _ hb
    unfold matchBlogs at hb2
    have hp := (List.mem_filter.mp hb2).2
    simp only [Bool.and_eq_true, beq_iff_eq] at hp
    refine ⟨hp.2, ?_⟩
    rw [hp.2]
    decide
  refine ⟨?_, ?_, ?_, ?_⟩
  · intro hnone
    have hfind : findCatBySlugPublished cats slug = none := by
      apply List.find?_eq_none.mpr
      intro c hc hp
      simp only [Bool.and_eq_true, beq_iff_eq] at hp
      exact hnone c hc hp
    simp [getByCategorySlug, hfind]
  · intro c hv hfind
    simp [getByCategoryId, hv, hfind, CatListRes.isOk]
  · intro b hb
    cases hf : findCatBySlugPublished cats slug with
    | none => simp [getByCategorySlug, hf, CatListRes.items] at hb
    | some c =>
      simp only [getByCategorySlug, hf, CatListRes.items] at hb
      exact hitems blogs c.id _ _ b hb
  · intro b hb
    by_cases hv : isValidObjectId cid = true
    · cases hf : findCatById cats cid with
      | none => simp [getByCategoryId, hv, hf, CatListRes.items] at hb
      | some c =>
        simp only [getByCategoryId, hv, Bool.not_true, Bool.false_eq_true, if_false, hf,
          CatListRes.items] at hb
        exact hitems blogs cid _ _ b hb
    · have hv2 : isValidObjectId cid = false := by
        exact Bool.not_eq_true _ ▸ (Bool.eq_false_iff.mpr hv)
      simp [getByCategoryId, hv2, CatListRes.items] at hb

/-- C8 witness: the draft category `hidden` is invisible by slug but its id
lookup succeeds; the published blog appears in the id listing while the
draft blog does not. -/
theorem category_listing_visibility_witness :
    getByCategorySlug sampleCats blogsPair "hidden" none none = CatListRes.notFound ∧
    (getByCategoryId sampleCats blogsPair catDraft.id none none).isOk = true ∧
    sampleBlog1 ∈ (getByCategoryId sampleCats blogsPair cat1.id none none).items ∧
    sampleBlog1.status = "published" ∧
    sampleBlog2.status = "draft" ∧
    sampleBlog2 ∉ (getByCategoryId sampleCats blogsPair cat1.id none none).items := by
  have h := category_listing_visibility sampleCats blogsPair "hidden" catDraft.id none none
  have h2 := category_listing_visibility sampleCats blogsPair "tech" cat1.id none none
  exact ⟨h.1 (by decide), h.2.1 catDraft (by decide) (by decide), by decide,
    (h2.2.2.2 sampleBlog1 (by decide)).1, by decide, by decide⟩

/-- C7: for both category listing routes, when the category lookup succeeds,
the pagination object reports `total` equal to the number of stored blogs
matching the category with status published, `pages` equal to the ceiling of
`total / limit` (characterized as the least `n` with `total ≤ n * limit`),
and the returned page holds `min limit (total - (page-1)*limit)` items —
never more than `limit`. -/
theorem getByCategory_pagination (cats : List Category) (blogs : List BlogDoc)
    (cid slug : String) (pq lq : Option Nat) :
    (∀ c, isValidObjectId cid = true → findCatById cats cid = some c →
      getByCategoryId cats blogs cid pq lq =
        CatListRes.ok (paginate (matchBlogs blogs cid) (numOr pq 1) (numOr lq 10))
          { total := (matchBlogs blogs cid).length, page := numOr pq 1,
            pages := ceilDiv (matchBlogs blogs cid).length (numOr lq 10),
            limit := numOr lq 10 }
          { name := c.name, slug := c.slug, description := c.description,
            blogCount := none } ∧
      (getByCategoryId cats blogs cid pq lq).items.length =
        min (numOr lq 10) ((matchBlogs blogs cid).length - (numOr pq 1 - 1) * numOr lq 10) ∧
      (getByCategoryId cats blogs cid pq lq).items.length ≤ numOr lq 10 ∧
      (∀ n, (getByCategoryId cats blogs cid pq lq).pageInfo.pages ≤ n ↔
        (matchBlogs blogs cid).length ≤ n * numOr lq 10)) ∧
    (∀ c, findCatBySlugPublished cats slug = some c →
      (getByCategorySlug cats blogs slug pq lq).pageInfo.total =
        (matchBlogs blogs c.id).length ∧
      (getByCategorySlug cats blogs slug pq lq).items.length =
        min (numOr lq 10) ((matchBlogs blogs c.id).length - (numOr pq 1 - 1) * numOr lq 10) ∧
      (getByCategorySlug cats blogs slug pq lq).items.length ≤ numOr lq 10 ∧
      (∀ n, (getByCategorySlug cats blogs slug pq lq).pageInfo.pages ≤ n ↔
        (matchBlogs blogs c.id).length ≤ n * numOr lq 10)) := by
  constructor
  · intro c hv hf
    have hres : getByCategoryId cats blogs cid pq lq =
        CatListRes.ok (paginate (matchBlogs blogs cid) (numOr pq 1) (numOr lq 10))
          { total := (matchBlogs blogs cid).length, page := numOr pq 1,
            pages := ceilDiv (matchBlogs blogs cid).length (numOr lq 10),
            limit := numOr lq 10 }
          { name := c.name, slug := c.slug, description := c.description,
            blogCount := none } := by
      simp [getByCategoryId, hv, hf]
    have hlen : (getByCategoryId cats blogs cid pq lq).items.length =
        min (numOr lq 10) ((matchBlogs blogs cid).length - (numOr pq 1 - 1) * numOr lq 10) := by
      rw [hres]
      simp only [CatListRes.items]
      exact length_paginate _ _ _
    refine ⟨hres, hlen, ?_, ?_⟩
    · rw [hlen]
      exact Nat.min_le_left _ _
    · intro n
      rw [hres]
      simp only [CatListRes.pageInfo]
      exact ceilDiv_le_iff _ _ n (numOr_pos lq 10 (by decide))
  · intro c hf
    have hres : getByCategorySlug cats blogs slug pq lq =
        CatListRes.ok (paginate (matchBlogs blogs c.id) (numOr pq 1) (numOr lq 10))
          { total := (matchBlogs blogs c.id).length, page := numOr pq 1,
            pages := ceilDiv (matchBlogs blogs c.id).length (numOr lq 10),
            limit := numOr lq 10 }
          { name := c.name, slug := c.slug, description := c.description,
            blogCount := some (matchBlogs blogs c.id).length } := by
      simp [getByCategorySlug, hf]
    have hlen : (getByCategorySlug cats blogs slug pq lq).items.length =
        min (numOr lq 10) ((matchBlogs blogs c.id).length - (numOr pq 1 - 1) * numOr lq 10) := by
      rw [hres]
      simp only [CatListRes.items]
      exact length_paginate _ _ _
    refine ⟨?_, hlen, ?_, ?_⟩
    · rw [hres]
      rfl
    · rw [hlen]
      exact Nat.min_le_left _ _
    · intro n
      rw [hres]
      simp only [CatListRes.pageInfo]
      exact ceilDiv_le_iff _ _ n (numOr_pos lq 10 (by decide))

/-- C7 witness: with fifteen published blogs in one category and page size
10, page 1 returns 10 items with `pages = 2` and `total = 15`, and page 2
returns the remaining 5. -/
theorem getByCategory_pagination_witness :
    (getByCategoryId sampleCats fifteenBlogs cat1.id (some 1) (some 10)).items.length = 10 ∧
    (getByCategoryId sampleCats fifteenBlogs cat1.id (some 1) (some 10)).pageInfo.pages = 2 ∧
    (getByCategoryId sampleCats fifteenBlogs cat1.id (some 1) (some 10)).pageInfo.total = 15 ∧
    (getByCategoryId sampleCats fifteenBlogs cat1.id (some 2) (some 10)).items.length = 5 := by
  have h1 := (getByCategory_pagination sampleCats fifteenBlogs cat1.id "tech"
    (some 1) (some 10)).1 cat1 (by decide) (by decide)
  have h2 := (getByCategory_pagination sampleCats fifteenBlogs cat1.id "tech"
    (some 2) (some 10)).1 cat1 (by decide) (by decide)
  refine ⟨h1.2.1.trans (by decide), ?_, ?_, h2.2.1.trans (by decide)⟩
  · rw [h1.1]
    decide
  · rw [h1.1]
    decide

/-- C5: a creation request that passes the required-field and meta checks but
whose category id resolves to no stored category is rejected with the 400
invalid-category response, no remote call is issued (in particular no upload,
for the main image or any section image), and the blog store is unchanged. -/
theorem create_invalid_category_rejected (env : Env) (cats : List Category)
    (blogs : List BlogDoc) (req : CreateReq) (userId newId : String) (now : Nat)
    (pm : MetaIn)
    (ht : strTruthy req.title = true) (hd : strTruthy req.description = true)
    (hc : strTruthy req.category = true)
    (hm : req.meta = Jfield.val pm)
    (hmt : strTruthy pm.meta_title = true) (hmd : strTruthy pm.meta_description = true)
    (hmain : req.mainImage.isSome = true)
    (hcat : findCatById cats (req.category.getD "") = none) :
    createBlog env cats blogs req userId newId now = (CreateRes.invalidCategory, [], blogs) ∧
    CreateRes.invalidCategory.statusCode = 400 := by
  have hreq : requiredMissing req.title req.description req.category req.meta
      req.mainImage = false := by
    simp [requiredMissing, ht, hd, hc, hm, hmain, Jfield.truthy]
  rw [hm] at hreq
  refine ⟨?_, rfl⟩
  simp [createBlog, hreq, hm, hmt, hmd, hcat]

/-- C5 witness: a fully valid request against a category store that lacks its
category id is rejected with no effects and an unchanged store. -/
theorem create_invalid_category_witness :
    createBlog env0 [catDraft] sampleBlogs baseCreateReq "u1" "nb" 9 =
      (CreateRes.invalidCategory, [], sampleBlogs) := by
  exact (create_invalid_category_rejected env0 [catDraft] sampleBlogs baseCreateReq "u1" "nb" 9
    { meta_title := some "mt", meta_description := some "md", meta_keywords := none }
    (by decide) (by decide) (by decide) rfl (by decide) (by decide) (by decide) (by decide)).1

/-- C6: a creation request that passes every check, carries `n` section
descriptors, and has an asset for each position (an uploaded file at that
position or a truthy existing URL) produces a 201 created blog with exactly
`n` sections, one more stored document, and for every position `i` the
section's `order` equals `i` and its `section_img` is the upload URL of the
file at position `i` when one exists, and the supplied existing URL
otherwise. -/
theorem create_sections_positional (env : Env) (cats : List Category)
    (blogs : List BlogDoc) (req : CreateReq) (userId newId : String) (now : Nat)
    (pm : MetaIn) (c : Category) (mp : String) (l : List SectionIn)
    (ht : strTruthy req.title = true) (hd : strTruthy req.description = true)
    (hc : strTruthy req.category = true)
    (hm : req.meta = Jfield.val pm)
    (hmt : strTruthy pm.meta_title = true) (hmd : strTruthy pm.meta_description = true)
    (hcat : findCatById cats (req.category.getD "") = some c)
    (hmain : req.mainImage = some mp)
    (hedit : req.mainImageEdit ≠ Jfield.malformed)
    (hsec : req.sections = JArr.val l)
    (htags : req.tags ≠ JArr.malformed ∧ req.tags ≠ JArr.notArray)
    (hall : ∀ p ∈ l.enum, hasAsset req.section_images p.1 p.2 = true) :
    (createBlog env cats blogs req userId newId now).1.isCreated = true ∧
    (createBlog env cats blogs req userId newId now).1.resSections.length = l.length ∧
    (createBlog env cats blogs req userId newId now).2.2.length = blogs.length + 1 ∧
    ∀ i (hi : i < l.length)
      (hi2 : i < (createBlog env cats blogs req userId newId now).1.resSections.length),
      ((createBlog env cats blogs req userId newId now).1.resSections.get ⟨i, hi2⟩).order = i ∧
      ((createBlog env cats blogs req userId newId now).1.resSections.get
          ⟨i, hi2⟩).section_img =
        (match req.section_images[i]? with
         | some p => some (env.uploadUrl p)
         | none => (l.get ⟨i, hi⟩).section_img) := by
  have hreq : requiredMissing req.title req.description req.category req.meta
      req.mainImage = false := by
    simp [requiredMissing, ht, hd, hc, hm, hmain, Jfield.truthy]
  rw [hm, hmain] at hreq
  have hps := processSections_ok env req.section_images l hall
  have hkey : (createBlog env cats blogs req userId newId now).1.resSections =
        l.enum.map (fun p => okSection env req.section_images p.1 p.2) ∧
      (createBlog env cats blogs req userId newId now).1.isCreated = true ∧
      (createBlog env cats blogs req userId newId now).2.2.length = blogs.length + 1 := by
    cases he : req.mainImageEdit with
    | malformed => exact absurd he hedit
    | absent =>
      cases htg : req.tags with
      | malformed => exact absurd htg htags.1
      | notArray => exact absurd htg htags.2
      | absent =>
        simp [createBlog, hreq, hm, hmt, hmd, hcat, processMainImage, hmain, he, hsec, hps,
          htg, CreateRes.resSections, CreateRes.isCreated]
      | val t =>
        simp [createBlog, hreq, hm, hmt, hmd, hcat, processMainImage, hmain, he, hsec, hps,
          htg, CreateRes.resSections, CreateRes.isCreated]
    | val e =>
      cases htg : req.tags with
      | malformed => exact absurd htg htags.1
      | notArray => exact absurd htg htags.2
      | absent =>
        simp [createBlog, hreq, hm, hmt, hmd, hcat, processMainImage, hmain, he, hsec, hps,
          htg, CreateRes.resSections, CreateRes.isCreated]
      | val t =>
        simp [createBlog, hreq, hm, hmt, hmd, hcat, processMainImage, hmain, he, hsec, hps,
          htg, CreateRes.resSections, CreateRes.isCreated]
  refine ⟨hkey.2.1, ?_, hkey.2.2, ?_⟩
  · rw [hkey.1]
    simp [List.enum_length]
  · intro i hi hi2
    have hg := List.get_of_eq hkey.1 ⟨i, hi2⟩
    rw [hg, get_enum_map_okSection]
    exact ⟨okSection_order env req.section_images i _, okSection_img env req.section_images i _⟩

/-- C6 witness: a concrete request with two sections and one uploaded section
image: the first section gets the upload URL, the second keeps its supplied
URL, and the orders are 0 and 1. -/
theorem create_sections_positional_witness :
    (createBlog env0 sampleCats [] twoSectionReq "u1" "nb" 9).1.isCreated = true ∧
    (createBlog env0 sampleCats [] twoSectionReq "u1" "nb" 9).1.resSections.length = 2 ∧
    (createBlog env0 sampleCats [] twoSectionReq "u1" "nb" 9).1.resSections.map
      Section.order = [0, 1] ∧
    (createBlog env0 sampleCats [] twoSectionReq "u1" "nb" 9).1.resSections.map
      Section.section_img =
      [some "https://cdn.example.com/s0.png", some "https://old.example.com/k/u.png"] := by
  have h := create_sections_positional env0 sampleCats [] twoSectionReq "u1" "nb" 9
    { meta_title := some "mt", meta_description := some "md", meta_keywords := none }
    cat1 "main.png" [secInNoImg, secInWithUrl]
    (by decide) (by decide) (by decide) rfl (by decide) (by decide) (by decide) rfl
    (by decide) rfl ⟨by decide, by decide⟩ (by decide)
  exact ⟨h.1, h.2.1.trans rfl, by decide, by decide⟩

/-- C2 is false on the code at a concrete input: a creation request whose
single section has neither an uploaded file nor an existing URL fails with
the message identifying the section, but the failure surfaces through the
catch-all handler as HTTP 500, not as a 400 client-input error. -/
theorem create_missing_section_asset_counterexample :
    (createBlog env0 sampleCats [] missingAssetReq "u1" "nb" 9).1 =
      CreateRes.serverError "Missing image for section 1" ∧
    (createBlog env0 sampleCats [] missingAssetReq "u1" "nb" 9).1.statusCode = 500 ∧
    (createBlog env0 sampleCats [] missingAssetReq "u1" "nb" 9).1.statusCode ≠ 400 := by
  exact ⟨by decide, by decide, by decide⟩

/-- C2 (amended): a creation request that passes the earlier checks and whose
first asset-less section sits at position `i` fails with the human-readable
message `Missing image for section (i+1)` identifying the offending section,
surfaced as HTTP 500 (the generic create-error response with the message in
`details`), not 400, and no blog document is persisted. -/
theorem create_missing_section_asset_500 (env : Env) (cats : List Category)
    (blogs : List BlogDoc) (req : CreateReq) (userId newId : String) (now : Nat)
    (pm : MetaIn) (c : Category) (mp : String) (l : List SectionIn) (i : Nat)
    (ht : strTruthy req.title = true) (hd : strTruthy req.description = true)
    (hc : strTruthy req.category = true)
    (hm : req.meta = Jfield.val pm)
    (hmt : strTruthy pm.meta_title = true) (hmd : strTruthy pm.meta_description = true)
    (hcat : findCatById cats (req.category.getD "") = some c)
    (hmain : req.mainImage = some mp)
    (hedit : req.mainImageEdit ≠ Jfield.malformed)
    (hsec : req.sections = JArr.val l)
    (hi : i < l.length)
    (hmiss : hasAsset req.section_images i (l.get ⟨i, hi⟩) = false)
    (hbefore : ∀ j (hj : j < i),
      hasAsset req.section_images j (l.get ⟨j, Nat.lt_trans hj hi⟩) = true) :
    (createBlog env cats blogs req userId newId now).1 =
      CreateRes.serverError (String.append "Missing image for section " (toString (i + 1))) ∧
    (createBlog env cats blogs req userId newId now).1.statusCode = 500 ∧
    (createBlog env cats blogs req userId newId now).1.statusCode ≠ 400 ∧
    (createBlog env cats blogs req userId newId now).2.2 = blogs := by
  have hreq : requiredMissing req.title req.description req.category req.meta
      req.mainImage = false := by
    simp [requiredMissing, ht, hd, hc, hm, hmain, Jfield.truthy]
  rw [hm, hmain] at hreq
  have herr := processSections_first_error env req.section_images l i hi hmiss hbefore
  have hkey : (createBlog env cats blogs req userId newId now).1 =
        CreateRes.serverError
          (String.append "Missing image for section " (toString (i + 1))) ∧
      (createBlog env cats blogs req userId newId now).2.2 = blogs := by
    cases he : req.mainImageEdit with
    | malformed => exact absurd he hedit
    | absent =>
      simp [createBlog, hreq, hm, hmt, hmd, hcat, processMainImage, hmain, he, hsec, herr]
    | val e =>
      simp [createBlog, hreq, hm, hmt, hmd, hcat, processMainImage, hmain, he, hsec, herr]
  refine ⟨hkey.1, ?_, ?_, hkey.2⟩
  · rw [hkey.1]
    rfl
  · rw [hkey.1]
    simp [CreateRes.statusCode]

/-- C2 witness: the concrete asset-less-section request against a non-empty
store fails with the identifying message, as a 500, and persists nothing. -/
theorem create_missing_section_asset_500_witness :
    (createBlog env0 sampleCats blogsPair missingAssetReq "u1" "nb" 9).1 =
      CreateRes.serverError "Missing image for section 1" ∧
    (createBlog env0 sampleCats blogsPair missingAssetReq "u1" "nb" 9).2.2 = blogsPair := by
  have h := create_missing_section_asset_500 env0 sampleCats blogsPair missingAssetReq
    "u1" "nb" 9
    { meta_title := some "mt", meta_description := some "md", meta_keywords := none }
    cat1 "main.png" [secInNoImg] 0
    (by decide) (by decide) (by decide) rfl (by decide) (by decide) (by decide) rfl
    (by decide) rfl (by decide) (by decide)
    (fun j hj => absurd hj (Nat.not_lt_zero j))
  exact ⟨h.1.trans (by decide), h.2.2.2⟩

end BlogRoutes
